import Mathlib

/-!
Verification development for the shadowing-practice web application's
practice-session playback/recording controller.

The definitions below are a shallow embedding of the source:
* the transcript data model and `getCurrentIndex` / the secondary-transcript
  matching loop of `renderScriptLine` (practice page),
* the session controller's handlers (`handleStartRecording`,
  `handleStopRecording`, `handleModeToggle`, `onPlayerStateChange`, the
  polling-interval callback, the A/B loop toggles),
* the recorder hook (`startRecording`, `stopRecording`, `discardRecording`,
  `saveRecording`) of `useAudioRecorder.ts`, including the persistence
  (storage upsert + practice_recordings row upsert) performed by
  `saveRecording`.

Times in seconds and transcript offsets in milliseconds are embedded as
rationals (the source uses JS numbers; no claim here depends on binary
floating point rounding).  Player/recorder side effects are embedded as an
emitted list of commands (`Act`).  External failures (microphone denial,
upload errors) are injected as explicit boolean/outcome parameters at the
points where the source code awaits the corresponding promise.
-/

/-- A transcript line: `{ text, offset (ms), duration (ms) }`. -/
structure TranscriptItem where
  text : String
  offset : ℚ
  duration : ℚ
deriving DecidableEq, Repr

/-- A material (clip): video time bounds in seconds, primary transcript,
optional secondary (Japanese) transcript. -/
structure Material where
  start_time : ℚ
  end_time : ℚ
  transcript : List TranscriptItem
  transcript_ja : Option (List TranscriptItem)
deriving DecidableEq, Repr

/-- Descending scan of `getCurrentIndex`:
`for (let i = transcript.length - 1; i >= 0; i--) if (transcript[i].offset <= timeMs) return i; return -1`.
The fuel argument is the (exclusive) upper index bound. -/
def getCurrentIndexGo (transcript : List TranscriptItem) (timeMs : ℚ) : Nat → Int
  | 0 => -1
  | Nat.succ i =>
    match transcript.get? i with
    | some item => if item.offset ≤ timeMs then (i : Int) else getCurrentIndexGo transcript timeMs i
    | none => getCurrentIndexGo transcript timeMs i

/-- `getCurrentIndex(transcript)` from the practice page: converts the
current playback time (seconds) to milliseconds and scans from the last
segment down, returning the first (hence greatest) index whose offset is
`≤ timeMs`, else `-1`. -/
def getCurrentIndex (transcript : List TranscriptItem) (currentTime : ℚ) : Int :=
  getCurrentIndexGo transcript (currentTime * 1000) transcript.length

/-- The best-match scan in `renderScriptLine`: fold over the secondary
transcript keeping the first segment with strictly smallest
`|ja.offset - myStart|`; the accumulator `none` plays the role of
`minDiff = Infinity`, otherwise it holds `(bestMatch, minDiff)`. -/
def bestMatchLoop (myStart : ℚ) : List TranscriptItem → Option (TranscriptItem × ℚ) → Option (TranscriptItem × ℚ)
  | [], acc => acc
  | ja :: rest, acc =>
    let diff := |ja.offset - myStart|
    let acc' :=
      match acc with
      | none => some (ja, diff)
      | some (b, m) => if diff < m then some (ja, diff) else some (b, m)
    bestMatchLoop myStart rest acc'

/-- The secondary-transcript match of `renderScriptLine`: given the primary
transcript, the optional secondary transcript, the primary index `idx` and
the primary segment `item` (so `myStart = item.offset`), return the matched
secondary line, if any: positional match when the lengths are equal, else
the minimal-`|offset|`-difference segment when that minimum is `< 3000` ms. -/
def findJaMatch (transcriptEn : List TranscriptItem) (transcriptJa : Option (List TranscriptItem))
    (idx : Nat) (item : TranscriptItem) : Option TranscriptItem :=
  match transcriptJa with
  | none => none
  | some ja =>
    if 0 < ja.length then
      if ja.length = transcriptEn.length then ja.get? idx
      else
        match bestMatchLoop item.offset ja none with
        | some (b, m) => if m < 3000 then some b else none
        | none => none
    else none

/-- Top-level mode: `"practice" | "recording"`. -/
inductive Mode
  | practice
  | recording
deriving DecidableEq, Repr

/-- Recording sub-state: `"idle" | "recording" | "review"`. -/
inductive RecState
  | idle
  | recording
  | review
deriving DecidableEq, Repr

/-- Player state reported by an `onStateChange` event (`window.YT.PlayerState`);
states other than playing/paused/ended (buffering, cued, unstarted) are
collapsed into `other`, which the handler ignores. -/
inductive YTData
  | playing
  | paused
  | ended
  | other
deriving DecidableEq, Repr

/-- Side effects the handlers issue on the player / recorder adapters. -/
inductive Act
  | pauseVideo
  | playVideo
  | seekTo (t : ℚ)
  | recorderStart
  | recorderStop
deriving DecidableEq, Repr

/-- The session's runtime state: the `useState` hooks of the practice page
plus the `useRef`/`useState` pieces of the recorder hook.
`recorderActive` is `recorderRef.current !== null`, `hasBlob` is
`blobRef.current !== null`, `hasPreview` is `previewUrl !== null`,
`errMsg` is `error !== ""`, `audioPath` is `audioPath !== null`. -/
structure SessionState where
  practiceMode : Mode
  recordingState : RecState
  isPlaying : Bool
  playerUnlocked : Bool
  currentTime : ℚ
  isLooping : Bool
  loopA : Option ℚ
  loopB : Option ℚ
  recorderActive : Bool
  isRecordingHook : Bool
  hasBlob : Bool
  hasPreview : Bool
  errMsg : Bool
  audioPath : Bool
deriving DecidableEq, Repr

/-- Recorder hook `stopRecording`: no-op when `recorderRef.current` is null;
otherwise clears `isRecording`, awaits the adapter's `stop()` (outcome
injected as `stopOk`; on success the blob is kept in `blobRef` and a preview
URL is set, on failure the error message is set), and finally nulls the ref.
Exactly one `Act.recorderStop` is emitted when a recorder was active. -/
def stopRecording (stopOk : Bool) (s : SessionState) : SessionState × List Act :=
  if s.recorderActive = false then (s, [])
  else if stopOk then
    ({ s with isRecordingHook := false, hasBlob := true, hasPreview := true,
              recorderActive := false }, [Act.recorderStop])
  else
    ({ s with isRecordingHook := false, errMsg := true,
              recorderActive := false }, [Act.recorderStop])

/-- Recorder hook `discardRecording`: clears the preview, the blob and the
error message (the preview `Audio` element pause is not observable here). -/
def discardRecording (s : SessionState) : SessionState :=
  { s with hasPreview := false, hasBlob := false, errMsg := false }

/-- Page handler `handleStopRecording(shouldSave)`: returns immediately
unless the sub-state is still `recording`; otherwise pauses the player,
then either moves to `review` and stops the recorder (save path) or moves
to `idle`, stops the recorder and discards the blob (discard path). -/
def handleStopRecording (stopOk : Bool) (shouldSave : Bool) (s : SessionState) :
    SessionState × List Act :=
  if s.recordingState ≠ RecState.recording then (s, [])
  else
    if shouldSave then
      let s1 := { s with recordingState := RecState.review }
      let r := stopRecording stopOk s1
      (r.1, Act.pauseVideo :: r.2)
    else
      let s1 := { s with recordingState := RecState.idle }
      let r := stopRecording stopOk s1
      (discardRecording r.1, Act.pauseVideo :: r.2)

/-- Recorder hook `startRecording`: no-op when userId/materialId are absent;
otherwise clears error/preview/blob and awaits the adapter's `start()`
(outcome injected as `startOk`): on success the recorder ref is set and
`isRecording` becomes true; on failure only the error message is set. -/
def startRecording (idsPresent startOk : Bool) (s : SessionState) : SessionState × List Act :=
  if idsPresent = false then (s, [])
  else
    let s1 := { s with errMsg := false, hasPreview := false, hasBlob := false }
    if startOk then
      ({ s1 with recorderActive := true, isRecordingHook := true }, [Act.recorderStart])
    else
      ({ s1 with errMsg := true }, [Act.recorderStart])

/-- Page handler `handleStartRecording`: returns unless a material (and the
player) is present; sets the sub-state to `recording`, seeks the player to
the clip start, starts playback, then awaits the recorder hook's
`startRecording`. -/
def handleStartRecording (idsPresent startOk : Bool) (mat : Option Material)
    (s : SessionState) : SessionState × List Act :=
  match mat with
  | none => (s, [])
  | some m =>
    let s1 := { s with recordingState := RecState.recording }
    let r := startRecording idsPresent startOk s1
    (r.1, Act.seekTo m.start_time :: Act.playVideo :: r.2)

/-- An `onStateChange` event as consumed by the handler: the reported player
state and `event.target.getCurrentTime() || 0`. -/
structure StateChangeEvent where
  data : YTData
  reportedTime : ℚ
deriving DecidableEq, Repr

/-- Page handler `onPlayerStateChange`: updates `isPlaying`, sets the
permanent unlock flag on the first `playing`, and — when in recording mode
with sub-state `recording` — routes `ended` to the save path, `paused` near
the clip end (`time >= end_time - 0.2`) to the save path, and any other
`paused` to the discard path. -/
def onPlayerStateChange (stopOk : Bool) (mat : Option Material) (e : StateChangeEvent)
    (s : SessionState) : SessionState × List Act :=
  let playing := e.data = YTData.playing
  let paused := e.data = YTData.paused
  let ended := e.data = YTData.ended
  let s1 := { s with isPlaying := playing }
  let s2 := if playing then { s1 with playerUnlocked := true } else s1
  if s2.practiceMode = Mode.recording ∧ s2.recordingState = RecState.recording then
    if ended then handleStopRecording stopOk true s2
    else if paused then
      match mat with
      | some m =>
        if e.reportedTime ≥ m.end_time - 0.2 then handleStopRecording stopOk true s2
        else handleStopRecording stopOk false s2
      | none => handleStopRecording stopOk false s2
    else (s2, [])
  else (s2, [])

/-- The 50 ms polling-interval callback (created only while `isPlaying`):
samples the current time, auto-stops a recording once `time >= end_time`
(save path), and in practice mode with looping enabled seeks back to the
effective loop start (`loopA ?? start_time`) once the time reaches the
effective loop end (`loopB ?? end_time`), provided `start < end`.  Both
checks read the state captured at the start of the tick. -/
def pollTick (stopOk : Bool) (mat : Option Material) (time : ℚ) (s : SessionState) :
    SessionState × List Act :=
  let s0 := { s with currentTime := time }
  let r1 :=
    match mat with
    | some m =>
      if s.practiceMode = Mode.recording ∧ s.recordingState = RecState.recording ∧
          time ≥ m.end_time
      then handleStopRecording stopOk true s0
      else (s0, [])
    | none => (s0, [])
  let a2 : List Act :=
    match mat with
    | some m =>
      if s.isLooping = true ∧ s.practiceMode = Mode.practice then
        let start := s.loopA.getD m.start_time
        let stop := s.loopB.getD m.end_time
        if start < stop ∧ time ≥ stop then [Act.seekTo start] else []
      else []
    | none => []
  (r1.1, r1.2 ++ a2)

/-- Page handler `handleModeToggle`: pauses the player, (after a 200 ms
deferral) seeks to `material?.start_time || 0`, clears `isPlaying`, resets
the sub-state to `idle` and flips the top-level mode.  No guard on the
recording sub-state and no recorder call. -/
def handleModeToggle (mat : Option Material) (s : SessionState) : SessionState × List Act :=
  ({ s with isPlaying := false, recordingState := RecState.idle,
            practiceMode := if s.practiceMode = Mode.practice then Mode.recording
                            else Mode.practice },
   [Act.pauseVideo, Act.seekTo ((mat.map Material.start_time).getD 0)])

/-- The `練習モード` (practice-mode) tab of `PlaybackControls`:
`onClick={() => onModeToggle()}` — unconditional. -/
def practiceModeButton (mat : Option Material) (s : SessionState) : SessionState × List Act :=
  handleModeToggle mat s

/-- The `録音モード` (recording-mode) tab of `PlaybackControls`:
`onClick={() => { if (playerUnlocked || practiceMode === "recording") onModeToggle(); }}`. -/
def recordingModeButton (mat : Option Material) (s : SessionState) : SessionState × List Act :=
  if s.playerUnlocked = true ∨ s.practiceMode = Mode.recording then handleModeToggle mat s
  else (s, [])

/-- Page handler `handleToggleLoopA`: with A set, clear it (and disable
looping when B is also unset); with A unset, capture the player's current
time (`playerTime`) as A and enable looping. -/
def handleToggleLoopA (playerTime : ℚ) (s : SessionState) : SessionState :=
  match s.loopA with
  | some _ =>
    let s1 := { s with loopA := none }
    if s1.loopB = none then { s1 with isLooping := false } else s1
  | none => { s with loopA := some playerTime, isLooping := true }

/-- Page handler `handleToggleLoopB`, symmetric to `handleToggleLoopA`. -/
def handleToggleLoopB (playerTime : ℚ) (s : SessionState) : SessionState :=
  match s.loopB with
  | some _ =>
    let s1 := { s with loopB := none }
    if s1.loopA = none then { s1 with isLooping := false } else s1
  | none => { s with loopB := some playerTime, isLooping := true }

/-- Outcome of the awaited persistence steps inside the recorder hook's
`saveRecording`: the storage upload, the existing-row lookup, or the
row insert/update can each fail, or everything succeeds. -/
inductive SaveOutcome
  | uploadFail
  | fetchFail
  | dbFail
  | ok
deriving DecidableEq, Repr

/-- Session-state effect of the recorder hook's `saveRecording`: guarded on a
blob being present and on userId/materialId; on any thrown step the catch
sets the error message and nothing else (the blob and preview are kept); on
success the audio path is set and the preview/blob are cleared.
`setIsUploading` is set in front and cleared in the `finally`, so it is not
tracked. -/
def saveRecording (idsPresent : Bool) (outcome : SaveOutcome) (s : SessionState) : SessionState :=
  if s.hasBlob = false then s
  else if idsPresent = false then s
  else
    let s1 := { s with errMsg := false }
    match outcome with
    | SaveOutcome.uploadFail => { s1 with errMsg := true }
    | SaveOutcome.fetchFail => { s1 with errMsg := true }
    | SaveOutcome.dbFail => { s1 with errMsg := true }
    | SaveOutcome.ok => { s1 with audioPath := true, hasPreview := false, hasBlob := false }

/-- A row of the `practice_recordings` table (the columns `saveRecording`
touches).  `id` is the primary key. -/
structure RecordRow where
  id : Nat
  user_id : Nat
  material_id : Nat
  audio_path : String
  created_at : Nat
deriving DecidableEq, Repr

/-- The fixed storage key `${userId}/${materialId}.webm`. -/
def recordingFilePath (userId materialId : Nat) : String :=
  toString userId ++ "/" ++ toString materialId ++ ".webm"

/-- The persistence gateway's visible state: the `practice-recordings`
storage bucket (key ↦ blob content) and the `practice_recordings` rows. -/
structure Store where
  storage : List (String × Nat)
  rows : List RecordRow
deriving DecidableEq, Repr

/-- `supabase.storage.upload(filePath, blob, { upsert: true })`: overwrite
the blob at an existing key, else create the key. -/
def storageUpload (key : String) (blob : Nat) (storage : List (String × Nat)) :
    List (String × Nat) :=
  if storage.any (fun kv => kv.1 == key) then
    storage.map (fun kv => if kv.1 == key then (key, blob) else kv)
  else storage ++ [(key, blob)]

/-- Row predicate for the `(user, material)` pair used by the
`.eq("user_id", …).eq("material_id", …)` filters. -/
def rowMatches (userId materialId : Nat) (r : RecordRow) : Bool :=
  r.user_id == userId && r.material_id == materialId

/-- Persistence effect of the recorder hook's `saveRecording` (success path):
upload the blob to the fixed storage key with upsert semantics, then
`maybeSingle`-fetch the existing row for the `(user, material)` pair and
either update its `audio_path`/`created_at` (by primary key) or insert a
fresh row. -/
def saveRecordingDb (userId materialId freshId now blob : Nat) (st : Store) : Store :=
  let filePath := recordingFilePath userId materialId
  let storage1 := storageUpload filePath blob st.storage
  match st.rows.find? (rowMatches userId materialId) with
  | some existing =>
    { storage := storage1,
      rows := st.rows.map (fun r =>
        if r.id == existing.id then { r with audio_path := filePath, created_at := now }
        else r) }
  | none =>
    { storage := storage1,
      rows := st.rows ++ [{ id := freshId, user_id := userId, material_id := materialId,
                            audio_path := filePath, created_at := now }] }

/-- The rows recorded for a given `(user, material)` pair. -/
def pairRows (userId materialId : Nat) (st : Store) : List RecordRow :=
  st.rows.filter (rowMatches userId materialId)


/-! ### Generic lemmas about the active-index scan -/

/-- The scan's result is strictly below its fuel. -/
theorem go_lt (T : List TranscriptItem) (tm : ℚ) : ∀ n, getCurrentIndexGo T tm n < (n : Int) := by
  intro n
  induction n with
  | zero => simp [getCurrentIndexGo]
  | succ k ih =>
    simp only [getCurrentIndexGo]
    cases hk : T.get? k with
    | none => exact lt_trans ih (by exact_mod_cast Nat.lt_succ_self k)
    | some item =>
      by_cases hle : item.offset ≤ tm
      · simp [hle]
      · simp only [hle, if_false]
        exact lt_trans ih (by exact_mod_cast Nat.lt_succ_self k)

/-- The scan returns `-1` or a valid index whose segment offset is within time. -/
theorem go_spec (T : List TranscriptItem) (tm : ℚ) :
    ∀ n, getCurrentIndexGo T tm n = -1 ∨
      ∃ i : Nat, ∃ h : i < T.length,
        getCurrentIndexGo T tm n = (i : Int) ∧ (T.get ⟨i, h⟩).offset ≤ tm := by
  intro n
  induction n with
  | zero => left; rfl
  | succ k ih =>
    simp only [getCurrentIndexGo]
    cases hk : T.get? k with
    | none => exact ih
    | some item =>
      by_cases hle : item.offset ≤ tm
      · right
        obtain ⟨hlen, hget⟩ := List.get?_eq_some.mp hk
        exact ⟨k, hlen, by simp [hle], by rw [hget]; exact hle⟩
      · simpa [hle] using ih

/-- Every in-range index whose offset is within time bounds the result from below. -/
theorem go_lower (T : List TranscriptItem) (tm : ℚ) :
    ∀ n, ∀ i : Nat, ∀ h : i < T.length, i < n → (T.get ⟨i, h⟩).offset ≤ tm →
      (i : Int) ≤ getCurrentIndexGo T tm n := by
  intro n
  induction n with
  | zero => intro i h hin; omega
  | succ k ih =>
    intro i h hin hle
    simp only [getCurrentIndexGo]
    cases hk : T.get? k with
    | none =>
      have hlenk : T.length ≤ k := List.get?_eq_none.mp hk
      exact ih i h (lt_of_lt_of_le h hlenk) hle
    | some item =>
      by_cases hitem : item.offset ≤ tm
      · simp only [hitem, if_true]
        exact_mod_cast Nat.lt_succ_iff.mp hin
      · simp only [hitem, if_false]
        rcases Nat.lt_succ_iff_lt_or_eq.mp hin with hlt | rfl
        · exact ih i h hlt hle
        · rw [List.get?_eq_get h] at hk
          cases hk
          exact absurd hle hitem

/-- The scan is monotone in the queried time. -/
theorem go_mono (T : List TranscriptItem) (tm tm' : ℚ) (htm : tm ≤ tm') :
    ∀ n, getCurrentIndexGo T tm n ≤ getCurrentIndexGo T tm' n := by
  intro n
  induction n with
  | zero => exact le_refl _
  | succ k ih =>
    simp only [getCurrentIndexGo]
    cases hk : T.get? k with
    | none => exact ih
    | some item =>
      by_cases h1 : item.offset ≤ tm
      · have h2 : item.offset ≤ tm' := le_trans h1 htm
        simp [h1, h2]
      · simp only [h1, if_false]
        by_cases h2 : item.offset ≤ tm'
        · simp only [h2, if_true]
          exact le_of_lt (go_lt T tm k)
        · simp only [h2, if_false]
          exact ih

/-- The five-segment demo transcript of spec Scenario A
(offsets 0, 1000, 2500, 4000, 6000 ms). -/
def demoTranscript : List TranscriptItem :=
  [{ text := "s0", offset := 0, duration := 1000 },
   { text := "s1", offset := 1000, duration := 1500 },
   { text := "s2", offset := 2500, duration := 1500 },
   { text := "s3", offset := 4000, duration := 2000 },
   { text := "s4", offset := 6000, duration := 2000 }]

/-! ### Claims -/

/-- Claim C2: for every primary transcript `T` and current time `t` (seconds;
`t * 1000` ms as in the source), `getCurrentIndex` returns the greatest index
`i` with `T[i].offset ≤ t * 1000`, returns `-1` when every segment's offset
exceeds the time, is monotone non-decreasing in `t`, and on the Scenario-A
transcript at 4200 ms (t = 21/5 s) returns index 3. -/
theorem c2_active_index_greatest (T : List TranscriptItem) (t t' : ℚ) (ht : t ≤ t') :
    (∀ i : Nat, ∀ h : i < T.length, (T.get ⟨i, h⟩).offset ≤ t * 1000 →
        (i : Int) ≤ getCurrentIndex T t)
    ∧ (getCurrentIndex T t = -1 ∨
        ∃ i : Nat, ∃ h : i < T.length,
          getCurrentIndex T t = (i : Int) ∧ (T.get ⟨i, h⟩).offset ≤ t * 1000)
    ∧ ((∀ i : Nat, ∀ h : i < T.length, ¬ (T.get ⟨i, h⟩).offset ≤ t * 1000) →
        getCurrentIndex T t = -1)
    ∧ getCurrentIndex T t ≤ getCurrentIndex T t'
    ∧ getCurrentIndex demoTranscript (21 / 5) = 3 := by
  refine ⟨?_, ?_, ?_, ?_, by norm_num [getCurrentIndex, getCurrentIndexGo, demoTranscript]⟩
  · intro i h hle
    exact go_lower T (t * 1000) T.length i h h hle
  · exact go_spec T (t * 1000) T.length
  · intro hall
    rcases go_spec T (t * 1000) T.length with h | ⟨i, hh, _, hle⟩
    · exact h
    · exact absurd hle (hall i hh)
  · exact go_mono T (t * 1000) (t' * 1000)
      (mul_le_mul_of_nonneg_right ht (by norm_num)) T.length

/-- Witness for C2 at `T := demoTranscript`, `t := 2`, `t' := 3`. -/
theorem c2_active_index_greatest_witness :
    ((2 : ℚ) ≤ 3)
    ∧ ((∀ i : Nat, ∀ h : i < demoTranscript.length,
          (demoTranscript.get ⟨i, h⟩).offset ≤ 2 * 1000 →
          (i : Int) ≤ getCurrentIndex demoTranscript 2)
      ∧ (getCurrentIndex demoTranscript 2 = -1 ∨
          ∃ i : Nat, ∃ h : i < demoTranscript.length,
            getCurrentIndex demoTranscript 2 = (i : Int) ∧
            (demoTranscript.get ⟨i, h⟩).offset ≤ 2 * 1000)
      ∧ ((∀ i : Nat, ∀ h : i < demoTranscript.length,
            ¬ (demoTranscript.get ⟨i, h⟩).offset ≤ 2 * 1000) →
          getCurrentIndex demoTranscript 2 = -1)
      ∧ getCurrentIndex demoTranscript 2 ≤ getCurrentIndex demoTranscript 3
      ∧ getCurrentIndex demoTranscript (21 / 5) = 3) :=
  ⟨by norm_num, c2_active_index_greatest demoTranscript 2 3 (by norm_num)⟩

/-! ### Claim C3 -/

/-- Characterization of the `renderScriptLine` best-match scan: a `none`
result means empty input, and a `some (b, m)` result carries either the
propagated accumulator or a member of the list at distance `m`, where `m`
bounds every distance in the list and the accumulator's distance. -/
theorem bestMatchLoop_spec (p : ℚ) :
    ∀ l : List TranscriptItem, ∀ acc : Option (TranscriptItem × ℚ),
      (bestMatchLoop p l acc = none → acc = none ∧ l = [])
      ∧ (∀ b m, bestMatchLoop p l acc = some (b, m) →
          (acc = some (b, m) ∨ (b ∈ l ∧ m = |b.offset - p|))
          ∧ (∀ seg ∈ l, m ≤ |seg.offset - p|)
          ∧ (∀ b0 m0, acc = some (b0, m0) → m ≤ m0)) := by
  intro l
  induction l with
  | nil =>
    intro acc
    constructor
    · intro h; exact ⟨h, rfl⟩
    · intro b m h
      refine ⟨Or.inl h, by simp, ?_⟩
      intro b0 m0 h0
      rw [h0] at h
      cases h
      exact le_refl _
  | cons ja rest ih =>
    intro acc
    set diff := |ja.offset - p| with hdiff
    have hstep : ∀ acc0, bestMatchLoop p (ja :: rest) acc0 =
        bestMatchLoop p rest (match acc0 with
          | none => some (ja, |ja.offset - p|)
          | some (b, m) => if |ja.offset - p| < m then some (ja, |ja.offset - p|) else some (b, m)) := by
      intro acc0; rfl
    constructor
    · intro h
      rw [hstep] at h
      have := (ih _).1 h
      rcases this with ⟨hacc', _⟩
      cases acc with
      | none => simp at hacc'
      | some pr =>
        obtain ⟨b0, m0⟩ := pr
        by_cases hc : |ja.offset - p| < m0 <;> simp [hc] at hacc'
    · intro b m h
      rw [hstep] at h
      obtain ⟨hA, hB, hC⟩ := (ih _).2 b m h
      -- m ≤ diff
      have hmdiff : m ≤ |ja.offset - p| := by
        cases acc with
        | none => exact hC ja _ rfl
        | some pr =>
          obtain ⟨b0, m0⟩ := pr
          by_cases hc : |ja.offset - p| < m0
          · simp only [hc, if_true] at hC
            exact hC ja _ rfl
          · simp only [hc, if_false] at hC
            exact le_trans (hC b0 m0 rfl) (not_lt.mp hc)
      refine ⟨?_, ?_, ?_⟩
      · -- membership / acc propagation
        cases acc with
        | none =>
          rcases hA with hA | ⟨hmem, hm⟩
          · cases hA; exact Or.inr ⟨List.mem_cons_self _ _, rfl⟩
          · exact Or.inr ⟨List.mem_cons_of_mem _ hmem, hm⟩
        | some pr =>
          obtain ⟨b0, m0⟩ := pr
          by_cases hc : |ja.offset - p| < m0
          · simp only [hc, if_true] at hA
            rcases hA with hA | ⟨hmem, hm⟩
            · cases hA; exact Or.inr ⟨List.mem_cons_self _ _, rfl⟩
            · exact Or.inr ⟨List.mem_cons_of_mem _ hmem, hm⟩
          · simp only [hc, if_false] at hA
            rcases hA with hA | ⟨hmem, hm⟩
            · exact Or.inl hA
            · exact Or.inr ⟨List.mem_cons_of_mem _ hmem, hm⟩
      · intro seg hseg
        rcases List.mem_cons.mp hseg with rfl | hseg
        · exact hmdiff
        · exact hB seg hseg
      · intro b0 m0 h0
        cases h0
        by_cases hc : |ja.offset - p| < m0
        · simp only [hc, if_true] at hC
          exact le_trans (hC ja _ rfl) (le_of_lt hc)
        · simp only [hc, if_false] at hC
          exact hC b0 m0 rfl

/-- Scenario-B/C fixtures: a secondary segment at 3900 ms, a 4-segment and a
2-segment secondary transcript, and primary segments at 4000 ms / 100 ms. -/
def jaSegB : TranscriptItem := { text := "j2", offset := 3900, duration := 1000 }

def scenarioJaB : List TranscriptItem :=
  [{ text := "j0", offset := 0, duration := 1000 },
   { text := "j1", offset := 1500, duration := 1000 },
   jaSegB,
   { text := "j3", offset := 7000, duration := 1000 }]

def scenarioJaC : List TranscriptItem :=
  [{ text := "j0", offset := 5000, duration := 1000 },
   { text := "j1", offset := 9000, duration := 1000 }]

def itemP4000 : TranscriptItem := { text := "s3", offset := 4000, duration := 2000 }

def itemP100 : TranscriptItem := { text := "p", offset := 100, duration := 1000 }


/-- Claim C3: with equal segment counts the secondary match is positional
(same index); with unequal counts the match is a secondary segment of
minimal absolute offset difference from the primary segment's offset, kept
exactly when that minimum is under 3000 ms; concretely, nearest offset 3900
matches primary 4000 (diff 100) and nearest offset 5000 does not match
primary 100 (diff 4900). -/
theorem c3_secondary_match (en ja : List TranscriptItem) (idx : Nat) (item : TranscriptItem)
    (hne : ja ≠ []) :
    (ja.length = en.length → idx < en.length →
        findJaMatch en (some ja) idx item = ja.get? idx ∧ (ja.get? idx).isSome = true)
    ∧ (ja.length ≠ en.length →
        ∃ b, b ∈ ja ∧ (∀ seg ∈ ja, |b.offset - item.offset| ≤ |seg.offset - item.offset|) ∧
          findJaMatch en (some ja) idx item =
            (if |b.offset - item.offset| < 3000 then some b else none))
    ∧ findJaMatch demoTranscript (some scenarioJaB) 3 itemP4000 = some jaSegB
    ∧ findJaMatch demoTranscript (some scenarioJaC) 0 itemP100 = none := by
  have hpos : 0 < ja.length := List.length_pos.mpr hne
  refine ⟨?_, ?_, ?_, ?_⟩
  · intro hlen hidx
    constructor
    · simp only [findJaMatch]
      rw [if_pos hpos, if_pos hlen]
    · rw [List.get?_eq_get (by omega : idx < ja.length)]
      rfl
  · intro hlen
    cases hbm : bestMatchLoop item.offset ja none with
    | none =>
      obtain ⟨-, hnil⟩ := (bestMatchLoop_spec item.offset ja none).1 hbm
      exact absurd hnil hne
    | some pr =>
      obtain ⟨b, m⟩ := pr
      obtain ⟨hA, hB, -⟩ := (bestMatchLoop_spec item.offset ja none).2 b m hbm
      rcases hA with hA | ⟨hmem, hm⟩
      · exact absurd hA (by simp)
      · subst hm
        refine ⟨b, hmem, hB, ?_⟩
        simp [findJaMatch, hpos, hlen, hbm]
  · norm_num [findJaMatch, bestMatchLoop, demoTranscript, scenarioJaB, jaSegB, itemP4000, abs]
  · norm_num [findJaMatch, bestMatchLoop, demoTranscript, scenarioJaC, itemP100, abs]

/-- Witness for C3 at `en := demoTranscript`, `ja := scenarioJaB`,
`idx := 3`, `item := itemP4000`. -/
theorem c3_secondary_match_witness :
    scenarioJaB ≠ ([] : List TranscriptItem)
    ∧ ((scenarioJaB.length = demoTranscript.length → 3 < demoTranscript.length →
          findJaMatch demoTranscript (some scenarioJaB) 3 itemP4000 = scenarioJaB.get? 3 ∧
          (scenarioJaB.get? 3).isSome = true)
      ∧ (scenarioJaB.length ≠ demoTranscript.length →
          ∃ b, b ∈ scenarioJaB ∧
            (∀ seg ∈ scenarioJaB, |b.offset - itemP4000.offset| ≤ |seg.offset - itemP4000.offset|) ∧
            findJaMatch demoTranscript (some scenarioJaB) 3 itemP4000 =
              (if |b.offset - itemP4000.offset| < 3000 then some b else none))
      ∧ findJaMatch demoTranscript (some scenarioJaB) 3 itemP4000 = some jaSegB
      ∧ findJaMatch demoTranscript (some scenarioJaC) 0 itemP100 = none) :=
  ⟨by simp [scenarioJaB], c3_secondary_match demoTranscript scenarioJaB 3 itemP4000 (by simp [scenarioJaB])⟩

/-- The initial session state of the page (`useState` initialisers). -/
def mkState : SessionState :=
  { practiceMode := Mode.practice, recordingState := RecState.idle,
    isPlaying := false, playerUnlocked := false, currentTime := 0,
    isLooping := false, loopA := none, loopB := none,
    recorderActive := false, isRecordingHook := false,
    hasBlob := false, hasPreview := false, errMsg := false, audioPath := false }

/-- A clip with bounds [0s, 60s] over the demo transcript (spec Scenario D). -/
def demoClip : Material :=
  { start_time := 0, end_time := 60, transcript := demoTranscript, transcript_ja := none }

/-- The Scenario-D session state: practice mode, playing, looping enabled,
`A = 10` s, `B` unset. -/
def scenarioDState : SessionState :=
  { mkState with isPlaying := true, isLooping := true, loopA := some 10 }

/-- Claim C4: on a polling tick in practice mode while playing, the effective
loop start is `loopA ?? start_time` and the effective loop end is
`loopB ?? end_time`; a single seek to the effective start is issued exactly
when looping is enabled, effective start < effective end, and the sampled
time has reached the effective end; no pause is issued and the state change
is just the sampled current time.  Concretely A=10s, B unset, bounds
[0,60]s, looping on, sampled time 61s gives a seek to 10s. -/
theorem c4_practice_loop_tick (s : SessionState) (m : Material) (t : ℚ)
    (hPl : s.isPlaying = true) (hPM : s.practiceMode = Mode.practice) :
    (pollTick true (some m) t s).1 = { s with currentTime := t }
    ∧ (pollTick true (some m) t s).2 =
        (if s.isLooping = true ∧ s.loopA.getD m.start_time < s.loopB.getD m.end_time ∧
            t ≥ s.loopB.getD m.end_time
         then [Act.seekTo (s.loopA.getD m.start_time)] else [])
    ∧ Act.pauseVideo ∉ (pollTick true (some m) t s).2
    ∧ (pollTick true (some m) t s).1.isPlaying = s.isPlaying
    ∧ (pollTick true (some demoClip) 61 scenarioDState).2 = [Act.seekTo 10] := by
  have h1 : (pollTick true (some m) t s).1 = { s with currentTime := t } := by
    simp [pollTick, hPM]
  have h2 : (pollTick true (some m) t s).2 =
      (if s.isLooping = true ∧ s.loopA.getD m.start_time < s.loopB.getD m.end_time ∧
          t ≥ s.loopB.getD m.end_time
       then [Act.seekTo (s.loopA.getD m.start_time)] else []) := by
    simp only [pollTick, hPM]
    by_cases hl : s.isLooping = true
    · by_cases hc : s.loopA.getD m.start_time < s.loopB.getD m.end_time ∧
          t ≥ s.loopB.getD m.end_time
      · simp [hl, hc]
      · simp [hl, hc]
    · simp [hl]
  refine ⟨h1, h2, ?_, ?_, ?_⟩
  · rw [h2]
    by_cases hc : s.isLooping = true ∧ s.loopA.getD m.start_time < s.loopB.getD m.end_time ∧
        t ≥ s.loopB.getD m.end_time
    · simp [hc]
    · simp [hc]
  · rw [h1]
  · norm_num [pollTick, scenarioDState, mkState, demoClip]
    simp

/-- Witness for C4 at the Scenario-D state (`A = 10`, `B` unset, looping
enabled, playing, bounds [0,60], sampled time 61). -/
theorem c4_practice_loop_tick_witness :
    (scenarioDState.isPlaying = true ∧ scenarioDState.practiceMode = Mode.practice)
    ∧ (pollTick true (some demoClip) 61 scenarioDState).2 = [Act.seekTo 10] :=
  ⟨⟨rfl, rfl⟩, (c4_practice_loop_tick scenarioDState demoClip 61 rfl rfl).2.2.2.2⟩

/-- A state mid-recording: recording mode, sub-state `recording`, recorder
adapter active, playing. -/
def recordingState0 : SessionState :=
  { mkState with practiceMode := Mode.recording, recordingState := RecState.recording,
                 isPlaying := true, playerUnlocked := true,
                 recorderActive := true, isRecordingHook := true }

/-- Claim C1: in recording mode with sub-state `recording` (and a live
recorder), exactly the `ended` event, a `paused` event reported at
`end_time - 0.2` s or later, and a polling tick at `end_time` or later
move the controller to `review` (player paused, recorder stopped, blob and
preview retained, nothing persisted), while a `paused` event reported
earlier than `end_time - 0.2` moves it to `idle` (player paused, recorder
stopped, blob discarded, no preview); a tick before `end_time` and
`playing`/other events leave the sub-state at `recording`. -/
theorem c1_recording_exit_triggers (s : SessionState) (m : Material)
    (hMode : s.practiceMode = Mode.recording)
    (hSub : s.recordingState = RecState.recording)
    (hRec : s.recorderActive = true) :
    (∀ t : ℚ,
      (onPlayerStateChange true (some m) { data := YTData.ended, reportedTime := t } s).1.recordingState = RecState.review
      ∧ (onPlayerStateChange true (some m) { data := YTData.ended, reportedTime := t } s).1.isPlaying = false
      ∧ (onPlayerStateChange true (some m) { data := YTData.ended, reportedTime := t } s).1.hasBlob = true
      ∧ (onPlayerStateChange true (some m) { data := YTData.ended, reportedTime := t } s).1.hasPreview = true
      ∧ (onPlayerStateChange true (some m) { data := YTData.ended, reportedTime := t } s).1.recorderActive = false
      ∧ (onPlayerStateChange true (some m) { data := YTData.ended, reportedTime := t } s).1.audioPath = s.audioPath
      ∧ Act.pauseVideo ∈ (onPlayerStateChange true (some m) { data := YTData.ended, reportedTime := t } s).2
      ∧ Act.recorderStop ∈ (onPlayerStateChange true (some m) { data := YTData.ended, reportedTime := t } s).2)
    ∧ (∀ t : ℚ, t ≥ m.end_time - 0.2 →
      (onPlayerStateChange true (some m) { data := YTData.paused, reportedTime := t } s).1.recordingState = RecState.review
      ∧ (onPlayerStateChange true (some m) { data := YTData.paused, reportedTime := t } s).1.isPlaying = false
      ∧ (onPlayerStateChange true (some m) { data := YTData.paused, reportedTime := t } s).1.hasBlob = true
      ∧ (onPlayerStateChange true (some m) { data := YTData.paused, reportedTime := t } s).1.hasPreview = true
      ∧ (onPlayerStateChange true (some m) { data := YTData.paused, reportedTime := t } s).1.recorderActive = false
      ∧ (onPlayerStateChange true (some m) { data := YTData.paused, reportedTime := t } s).1.audioPath = s.audioPath
      ∧ Act.pauseVideo ∈ (onPlayerStateChange true (some m) { data := YTData.paused, reportedTime := t } s).2
      ∧ Act.recorderStop ∈ (onPlayerStateChange true (some m) { data := YTData.paused, reportedTime := t } s).2)
    ∧ (∀ t : ℚ, t < m.end_time - 0.2 →
      (onPlayerStateChange true (some m) { data := YTData.paused, reportedTime := t } s).1.recordingState = RecState.idle
      ∧ (onPlayerStateChange true (some m) { data := YTData.paused, reportedTime := t } s).1.isPlaying = false
      ∧ (onPlayerStateChange true (some m) { data := YTData.paused, reportedTime := t } s).1.hasBlob = false
      ∧ (onPlayerStateChange true (some m) { data := YTData.paused, reportedTime := t } s).1.hasPreview = false
      ∧ (onPlayerStateChange true (some m) { data := YTData.paused, reportedTime := t } s).1.recorderActive = false
      ∧ Act.pauseVideo ∈ (onPlayerStateChange true (some m) { data := YTData.paused, reportedTime := t } s).2
      ∧ Act.recorderStop ∈ (onPlayerStateChange true (some m) { data := YTData.paused, reportedTime := t } s).2)
    ∧ (∀ t : ℚ, t ≥ m.end_time →
      (pollTick true (some m) t s).1.recordingState = RecState.review
      ∧ (pollTick true (some m) t s).1.hasBlob = true
      ∧ (pollTick true (some m) t s).1.hasPreview = true
      ∧ (pollTick true (some m) t s).1.recorderActive = false
      ∧ (pollTick true (some m) t s).1.audioPath = s.audioPath
      ∧ Act.pauseVideo ∈ (pollTick true (some m) t s).2
      ∧ Act.recorderStop ∈ (pollTick true (some m) t s).2)
    ∧ (∀ t : ℚ, t < m.end_time →
      (pollTick true (some m) t s).1.recordingState = RecState.recording)
    ∧ (∀ t : ℚ,
      (onPlayerStateChange true (some m) { data := YTData.playing, reportedTime := t } s).1.recordingState = RecState.recording
      ∧ (onPlayerStateChange true (some m) { data := YTData.other, reportedTime := t } s).1.recordingState = RecState.recording) := by
  refine ⟨?_, ?_, ?_, ?_, ?_, ?_⟩
  · intro t
    simp [onPlayerStateChange, handleStopRecording, stopRecording, hMode, hSub, hRec]
  · intro t ht
    simp [onPlayerStateChange, handleStopRecording, stopRecording, hMode, hSub, hRec, ht]
  · intro t ht
    simp [onPlayerStateChange, handleStopRecording, stopRecording, discardRecording,
          hMode, hSub, hRec, not_le.mpr ht]
  · intro t ht
    simp [pollTick, handleStopRecording, stopRecording, hMode, hSub, hRec, ht]
  · intro t ht
    simp [pollTick, handleStopRecording, stopRecording, hMode, hSub, hRec, not_le.mpr ht]
  · intro t
    simp [onPlayerStateChange, hMode, hSub]

/-- Witness for C1 at the mid-recording state over the [0,60]s clip: `ended`
at 60 s, `paused` at 59.9 s (within 200 ms of the end) and a tick at 60 s
each land in `review`; `paused` at 30 s lands in `idle`. -/
theorem c1_recording_exit_triggers_witness :
    (recordingState0.practiceMode = Mode.recording
     ∧ recordingState0.recordingState = RecState.recording
     ∧ recordingState0.recorderActive = true)
    ∧ (onPlayerStateChange true (some demoClip)
        { data := YTData.ended, reportedTime := 60 } recordingState0).1.recordingState = RecState.review
    ∧ (onPlayerStateChange true (some demoClip)
        { data := YTData.paused, reportedTime := 59.9 } recordingState0).1.recordingState = RecState.review
    ∧ (onPlayerStateChange true (some demoClip)
        { data := YTData.paused, reportedTime := 30 } recordingState0).1.recordingState = RecState.idle
    ∧ (pollTick true (some demoClip) 60 recordingState0).1.recordingState = RecState.review :=
  ⟨⟨rfl, rfl, rfl⟩,
   ((c1_recording_exit_triggers recordingState0 demoClip rfl rfl rfl).1 60).1,
   ((c1_recording_exit_triggers recordingState0 demoClip rfl rfl rfl).2.1 59.9
      (by norm_num [demoClip])).1,
   ((c1_recording_exit_triggers recordingState0 demoClip rfl rfl rfl).2.2.1 30
      (by norm_num [demoClip])).1,
   ((c1_recording_exit_triggers recordingState0 demoClip rfl rfl rfl).2.2.2.1 60
      (by norm_num [demoClip])).1⟩

/-- An idle state in recording mode (about to start recording). -/
def idleRecModeState : SessionState :=
  { mkState with practiceMode := Mode.recording, playerUnlocked := true }

/-- Claim C5: the spec requires that a recorder-start failure revert the
sub-state to `idle` and pause the already-started player; the code only
sets the error message.  Evaluating `handleStartRecording` with a failing
adapter start shows the session left at sub-state `recording` with no
active recorder, the play command issued and no pause issued. -/
theorem c5_start_failure_leaves_recording :
    (handleStartRecording true false (some demoClip) idleRecModeState).1.recordingState = RecState.recording
    ∧ (handleStartRecording true false (some demoClip) idleRecModeState).1.errMsg = true
    ∧ (handleStartRecording true false (some demoClip) idleRecModeState).1.recorderActive = false
    ∧ (handleStartRecording true false (some demoClip) idleRecModeState).1.isRecordingHook = false
    ∧ Act.playVideo ∈ (handleStartRecording true false (some demoClip) idleRecModeState).2
    ∧ Act.pauseVideo ∉ (handleStartRecording true false (some demoClip) idleRecModeState).2 := by
  norm_num [handleStartRecording, startRecording, idleRecModeState, mkState, demoClip]
  simp

/-- A reviewing state holding an unsaved blob and its preview. -/
def reviewState0 : SessionState :=
  { mkState with practiceMode := Mode.recording, recordingState := RecState.review,
                 playerUnlocked := true, hasBlob := true, hasPreview := true }

/-- Claim C6: on any failing step of `saveRecording` (storage upload,
row lookup, row write) the error message is surfaced, the blob is kept,
the preview is untouched and the sub-state stays `review`; the blob and
preview are cleared (and the audio path set) only on the fully successful
save. -/
theorem c6_save_failure_keeps_blob (s : SessionState) (o : SaveOutcome)
    (hrev : s.recordingState = RecState.review) (hb : s.hasBlob = true) :
    (o ≠ SaveOutcome.ok →
        (saveRecording true o s).errMsg = true
        ∧ (saveRecording true o s).hasBlob = true
        ∧ (saveRecording true o s).hasPreview = s.hasPreview
        ∧ (saveRecording true o s).recordingState = RecState.review)
    ∧ (saveRecording true SaveOutcome.ok s).hasBlob = false
    ∧ (saveRecording true SaveOutcome.ok s).hasPreview = false
    ∧ (saveRecording true SaveOutcome.ok s).audioPath = true
    ∧ (saveRecording true SaveOutcome.ok s).recordingState = RecState.review := by
  refine ⟨?_, ?_, ?_, ?_, ?_⟩
  · intro ho
    cases o with
    | ok => exact absurd rfl ho
    | uploadFail => simp [saveRecording, hb, hrev]
    | fetchFail => simp [saveRecording, hb, hrev]
    | dbFail => simp [saveRecording, hb, hrev]
  · simp [saveRecording, hb]
  · simp [saveRecording, hb]
  · simp [saveRecording, hb]
  · simp [saveRecording, hb, hrev]

/-- Witness for C6 at the reviewing state with an upload failure. -/
theorem c6_save_failure_keeps_blob_witness :
    (reviewState0.recordingState = RecState.review ∧ reviewState0.hasBlob = true)
    ∧ ((SaveOutcome.uploadFail ≠ SaveOutcome.ok →
          (saveRecording true SaveOutcome.uploadFail reviewState0).errMsg = true
          ∧ (saveRecording true SaveOutcome.uploadFail reviewState0).hasBlob = true
          ∧ (saveRecording true SaveOutcome.uploadFail reviewState0).hasPreview = reviewState0.hasPreview
          ∧ (saveRecording true SaveOutcome.uploadFail reviewState0).recordingState = RecState.review)
      ∧ (saveRecording true SaveOutcome.ok reviewState0).hasBlob = false
      ∧ (saveRecording true SaveOutcome.ok reviewState0).hasPreview = false
      ∧ (saveRecording true SaveOutcome.ok reviewState0).audioPath = true
      ∧ (saveRecording true SaveOutcome.ok reviewState0).recordingState = RecState.review) :=
  ⟨⟨rfl, rfl⟩, c6_save_failure_keeps_blob reviewState0 SaveOutcome.uploadFail rfl rfl⟩

/-- `find?` skips a prefix in which it finds nothing. -/
theorem find?_append_of_none {α : Type} (p : α → Bool) (l1 l2 : List α)
    (h : l1.find? p = none) : (l1 ++ l2).find? p = l2.find? p := by
  induction l1 with
  | nil => rfl
  | cons a l ih =>
    rw [List.find?_cons] at h
    cases hp : p a with
    | true => rw [hp] at h; exact absurd h (by simp)
    | false =>
      rw [hp] at h
      rw [List.cons_append, List.find?_cons, hp]
      exact ih h

/-- Mapping a predicate-preserving function does not change the filter count. -/
theorem filter_map_length {α : Type} (f : α → α) (p : α → Bool)
    (h : ∀ a, p (f a) = p a) (l : List α) :
    ((l.map f).filter p).length = (l.filter p).length := by
  induction l with
  | nil => rfl
  | cons a l ih =>
    cases hp : p a with
    | true => simp [List.filter, h, hp, ih]
    | false => simp [List.filter, h, hp, ih]

/-- The `saveRecordingDb` row update changes only `audio_path`/`created_at`,
so it preserves the `(user, material)` predicate. -/
theorem rowMatches_update (u c i2 : Nat) (fp : String) (n : Nat) (r : RecordRow) :
    rowMatches u c (if r.id == i2 then { r with audio_path := fp, created_at := n } else r) =
    rowMatches u c r := by
  cases h : r.id == i2 <;> simp [h, rowMatches]

/-- One `saveRecordingDb` starting from at most one row for the pair leaves
exactly one row for the pair. -/
theorem pairRows_save_at_most_one (u c f n b : Nat) (st : Store)
    (h : (pairRows u c st).length ≤ 1) :
    (pairRows u c (saveRecordingDb u c f n b st)).length = 1 := by
  rcases Nat.le_one_iff_eq_zero_or_eq_one.mp h with h0 | h1
  · -- no existing row: insert branch
    have hnil : st.rows.filter (rowMatches u c) = [] := List.length_eq_zero.mp h0
    have hnone : st.rows.find? (rowMatches u c) = none := by
      rw [List.find?_eq_none]
      intro x hx
      exact (List.filter_eq_nil_iff.mp hnil) x hx
    simp only [saveRecordingDb, hnone, pairRows]
    rw [List.filter_append, hnil]
    simp [rowMatches]
  · -- one existing row: update branch
    have hne : st.rows.find? (rowMatches u c) ≠ none := by
      intro hnone
      have : st.rows.filter (rowMatches u c) = [] := by
        apply List.filter_eq_nil_iff.mpr
        exact fun x hx => List.find?_eq_none.mp hnone x hx
      rw [pairRows, this] at h1
      simp at h1
    cases hfind : st.rows.find? (rowMatches u c) with
    | none => exact absurd hfind hne
    | some ex =>
      simp only [saveRecordingDb, hfind, pairRows]
      rw [filter_map_length _ _ (fun r => rowMatches_update u c ex.id _ n r)]
      exact h1

/-- Claim C7: starting from a store with no recording for `(u, c)` (and no
blob under its storage key), saving twice leaves exactly one
`practice_recordings` row for the pair — the row inserted by the first save,
with its `audio_path` at the fixed key and its timestamp updated by the
second save — and exactly one storage entry under the fixed key, holding the
second blob; moreover any store with at most one row for the pair still has
exactly one row for it after a save. -/
theorem c7_single_recording_slot (u c fid1 fid2 n1 n2 b1 b2 : Nat) (st : Store)
    (h0 : (pairRows u c st).length = 0)
    (hs : ∀ kv ∈ st.storage, kv.1 ≠ recordingFilePath u c) :
    pairRows u c (saveRecordingDb u c fid2 n2 b2 (saveRecordingDb u c fid1 n1 b1 st)) =
      [{ id := fid1, user_id := u, material_id := c,
         audio_path := recordingFilePath u c, created_at := n2 }]
    ∧ (saveRecordingDb u c fid2 n2 b2 (saveRecordingDb u c fid1 n1 b1 st)).storage.filter
        (fun kv => kv.1 == recordingFilePath u c) = [(recordingFilePath u c, b2)]
    ∧ (∀ st2 : Store, ∀ f n b : Nat, (pairRows u c st2).length ≤ 1 →
        (pairRows u c (saveRecordingDb u c f n b st2)).length = 1) := by
  have hnil : st.rows.filter (rowMatches u c) = [] := List.length_eq_zero.mp h0
  have hnone : st.rows.find? (rowMatches u c) = none := by
    rw [List.find?_eq_none]
    exact fun x hx => (List.filter_eq_nil_iff.mp hnil) x hx
  set path := recordingFilePath u c with hpath
  set row1 : RecordRow :=
    { id := fid1, user_id := u, material_id := c, audio_path := path, created_at := n1 }
    with hrow1
  have hrow1p : rowMatches u c row1 = true := by simp [rowMatches, hrow1]
  -- first save: insert branch
  have hanyfalse : st.storage.any (fun kv => kv.1 == path) = false := by
    rw [List.any_eq_false]
    intro kv hkv
    simpa using hs kv hkv
  have hsave1 : saveRecordingDb u c fid1 n1 b1 st =
      { storage := st.storage ++ [(path, b1)], rows := st.rows ++ [row1] } := by
    simp only [saveRecordingDb, hnone, storageUpload, hanyfalse]
    simp
  -- second save: update branch
  have hfind2 : (st.rows ++ [row1]).find? (rowMatches u c) = some row1 := by
    rw [find?_append_of_none _ _ _ hnone]
    simp [List.find?_cons, hrow1p]
  refine ⟨?_, ?_, ?_⟩
  · -- rows after second save
    rw [hsave1]
    simp only [saveRecordingDb, hfind2, pairRows]
    rw [List.map_append, List.filter_append]
    have hleft : ((st.rows.map (fun r =>
        if r.id == row1.id then { r with audio_path := path, created_at := n2 } else r)).filter
        (rowMatches u c)) = [] := by
      rw [List.filter_eq_nil_iff]
      intro a ha
      obtain ⟨r, hr, rfl⟩ := List.mem_map.mp ha
      rw [rowMatches_update]
      exact (List.filter_eq_nil_iff.mp hnil) r hr
    rw [hleft]
    simp [hrow1p, rowMatches, hrow1]
  · -- storage after second save
    rw [hsave1]
    simp only [saveRecordingDb, hfind2, storageUpload]
    have hany2 : ((st.storage ++ [(path, b1)]).any fun kv => kv.1 == path) = true := by
      rw [List.any_eq_true]
      exact ⟨(path, b1), by simp⟩
    rw [if_pos hany2, List.map_append, List.filter_append]
    have hleft : ((st.storage.map (fun kv => if kv.1 == path then (path, b2) else kv)).filter
        (fun kv => kv.1 == path)) = [] := by
      rw [List.filter_eq_nil_iff]
      intro a ha
      obtain ⟨kv, hkv, rfl⟩ := List.mem_map.mp ha
      have : (kv.1 == path) = false := by simpa using hs kv hkv
      simp [this]
    rw [hleft]
    simp
  · intro st2 f n b h
    exact pairRows_save_at_most_one u c f n b st2 h

/-- Witness for C7: two saves into an initially empty store for user 1,
material 2. -/
theorem c7_single_recording_slot_witness :
    ((pairRows 1 2 { storage := [], rows := [] }).length = 0
     ∧ (∀ kv ∈ ({ storage := [], rows := [] } : Store).storage,
          kv.1 ≠ recordingFilePath 1 2))
    ∧ (pairRows 1 2 (saveRecordingDb 1 2 11 200 8 (saveRecordingDb 1 2 10 100 7
          { storage := [], rows := [] })) =
        [{ id := 10, user_id := 1, material_id := 2,
           audio_path := recordingFilePath 1 2, created_at := 200 }]
      ∧ (saveRecordingDb 1 2 11 200 8 (saveRecordingDb 1 2 10 100 7
          { storage := [], rows := [] })).storage.filter
          (fun kv => kv.1 == recordingFilePath 1 2) = [(recordingFilePath 1 2, 8)]
      ∧ (∀ st2 : Store, ∀ f n b : Nat, (pairRows 1 2 st2).length ≤ 1 →
          (pairRows 1 2 (saveRecordingDb 1 2 f n b st2)).length = 1)) :=
  ⟨⟨rfl, by simp⟩,
   c7_single_recording_slot 1 2 10 11 100 200 7 8 { storage := [], rows := [] } rfl (by simp)⟩

/-- Counterexample to C8: at the mid-recording state (sub-state `recording`,
recorder active), clicking the practice-mode tab performs the mode switch —
the top-level mode flips to `practice` while the recorder adapter is left
running and no recorder stop is issued. -/
theorem c8_mode_switch_mid_recording_counterexample :
    recordingState0.recordingState = RecState.recording
    ∧ recordingState0.practiceMode = Mode.recording
    ∧ (practiceModeButton (some demoClip) recordingState0).1.practiceMode = Mode.practice
    ∧ (practiceModeButton (some demoClip) recordingState0).1.recorderActive = true
    ∧ Act.recorderStop ∉ (practiceModeButton (some demoClip) recordingState0).2 := by
  refine ⟨rfl, rfl, ?_, ?_, ?_⟩ <;>
    simp [practiceModeButton, handleModeToggle, recordingState0, mkState, demoClip]

/-- Claim C8 as amended: mode switching is not guarded against a recording
in flight — the practice-mode tab invokes the toggle unconditionally and the
recording-mode tab invokes it whenever the player is unlocked or the mode is
already `recording`; the toggle always flips the mode, pauses the player,
clears `isPlaying`, resets the sub-state to `idle` and leaves the recorder
adapter untouched (no stop issued). -/
theorem c8_mode_switch_unguarded (s : SessionState) (mat : Option Material) :
    ((practiceModeButton mat s).1.practiceMode =
        (if s.practiceMode = Mode.practice then Mode.recording else Mode.practice)
     ∧ (practiceModeButton mat s).1.recordingState = RecState.idle
     ∧ (practiceModeButton mat s).1.isPlaying = false
     ∧ (practiceModeButton mat s).1.recorderActive = s.recorderActive
     ∧ (practiceModeButton mat s).1.hasBlob = s.hasBlob
     ∧ Act.pauseVideo ∈ (practiceModeButton mat s).2
     ∧ Act.recorderStop ∉ (practiceModeButton mat s).2)
    ∧ (s.playerUnlocked = true ∨ s.practiceMode = Mode.recording →
        recordingModeButton mat s = practiceModeButton mat s)
    ∧ (s.playerUnlocked = false → s.practiceMode = Mode.practice →
        recordingModeButton mat s = (s, [])) := by
  refine ⟨⟨rfl, rfl, rfl, rfl, rfl, ?_, ?_⟩, ?_, ?_⟩
  · simp [practiceModeButton, handleModeToggle]
  · simp [practiceModeButton, handleModeToggle]
  · intro hg
    simp [recordingModeButton, practiceModeButton, hg]
  · intro hu hm
    simp [recordingModeButton, hu, hm]

/-- Witness for C8-as-amended at the mid-recording state. -/
theorem c8_mode_switch_unguarded_witness :
    (recordingState0.playerUnlocked = true ∨ recordingState0.practiceMode = Mode.recording)
    ∧ (practiceModeButton (some demoClip) recordingState0).1.recordingState = RecState.idle
    ∧ recordingModeButton (some demoClip) recordingState0 =
        practiceModeButton (some demoClip) recordingState0 :=
  ⟨Or.inr rfl,
   (c8_mode_switch_unguarded recordingState0 (some demoClip)).1.2.1,
   (c8_mode_switch_unguarded recordingState0 (some demoClip)).2.1 (Or.inr rfl)⟩

/-- A practice-mode state with the loop markers set in swapped value order:
`A = 50` s, `B = 10` s, looping enabled, playing. -/
def swappedLoopState : SessionState :=
  { mkState with isPlaying := true, isLooping := true,
                 loopA := some 50, loopB := some 10 }

/-- Counterexample to C9: with `A = 50`, `B = 10` (both set, looping
enabled, practice mode, playing) and a sampled time of 55 — which is past
`max(A,B) = 50` — the claim predicts a seek to `min(A,B) = 10`, but the
polling tick issues no action at all: the code requires `A < B` with `A` as
start and `B` as end, and never normalizes the pair. -/
theorem c9_min_max_counterexample :
    swappedLoopState.isLooping = true
    ∧ swappedLoopState.loopA = some 50
    ∧ swappedLoopState.loopB = some 10
    ∧ (55 : ℚ) ≥ max 50 10
    ∧ Act.seekTo (min 50 10) ∉ (pollTick true (some demoClip) 55 swappedLoopState).2
    ∧ (pollTick true (some demoClip) 55 swappedLoopState).2 = [] := by
  refine ⟨rfl, rfl, rfl, by norm_num, ?_, ?_⟩ <;>
    norm_num [pollTick, swappedLoopState, mkState, demoClip]

/-- Claim C9 as amended: when both markers are set (in either order of
setting) and looping is enabled in practice mode, the loop branch treats `A`
as the start and `B` as the end: a seek to `A` is issued exactly when
`A < B` and the sampled time has reached `B`; when `A ≥ B` no loop seek is
ever issued. -/
theorem c9_loop_requires_a_lt_b (s : SessionState) (m : Material) (a b t : ℚ)
    (hA : s.loopA = some a) (hB : s.loopB = some b)
    (hl : s.isLooping = true) (hm : s.practiceMode = Mode.practice) :
    (pollTick true (some m) t s).2 = (if a < b ∧ t ≥ b then [Act.seekTo a] else [])
    ∧ (¬ a < b → (pollTick true (some m) t s).2 = []) := by
  have h2 : (pollTick true (some m) t s).2 =
      (if a < b ∧ t ≥ b then [Act.seekTo a] else []) := by
    simp only [pollTick, hm, hA, hB, hl]
    by_cases hc : a < b ∧ t ≥ b
    · simp [hc, Option.getD]
    · simp [hc, Option.getD]
  refine ⟨h2, ?_⟩
  intro hab
  rw [h2, if_neg]
  exact fun hc => hab hc.1

/-- A practice-mode state with `A = 5` s and `B = 20` s, looping enabled. -/
def orderedLoopState : SessionState :=
  { mkState with isLooping := true, loopA := some 5, loopB := some 20 }

/-- Witness for C9-as-amended: `A = 5`, `B = 20`, sampled time 25 gives a
seek back to 5. -/
theorem c9_loop_requires_a_lt_b_witness :
    (orderedLoopState.loopA = some 5 ∧ orderedLoopState.loopB = some 20
      ∧ orderedLoopState.isLooping = true
      ∧ orderedLoopState.practiceMode = Mode.practice)
    ∧ (pollTick true (some demoClip) 25 orderedLoopState).2 =
        (if (5 : ℚ) < 20 ∧ (25 : ℚ) ≥ 20 then [Act.seekTo 5] else []) :=
  ⟨⟨rfl, rfl, rfl, rfl⟩,
   (c9_loop_requires_a_lt_b orderedLoopState demoClip 5 20 25 rfl rfl rfl rfl).1⟩

/-- Claim C10: stop-recording triggers are idempotent — from sub-state
`recording`, the first stop call leaves the sub-state off `recording` with
no active recorder and at most one adapter stop issued; a second stop call
on the resulting state is a complete no-op (same state, no actions);
independently, the hook's `stopRecording` is a no-op when no recorder
instance is active, and a repeated hook stop never issues actions. -/
theorem c10_stop_idempotent (s : SessionState) (ok1 ok2 save1 save2 : Bool)
    (h : s.recordingState = RecState.recording) :
    (handleStopRecording ok1 save1 s).1.recordingState ≠ RecState.recording
    ∧ handleStopRecording ok2 save2 (handleStopRecording ok1 save1 s).1 =
        ((handleStopRecording ok1 save1 s).1, [])
    ∧ (handleStopRecording ok1 save1 s).1.recorderActive = false
    ∧ List.count Act.recorderStop (handleStopRecording ok1 save1 s).2 ≤ 1
    ∧ (∀ s2 : SessionState, s2.recorderActive = false → stopRecording ok2 s2 = (s2, []))
    ∧ (∀ s2 : SessionState, (stopRecording ok2 (stopRecording ok1 s2).1).2 = []) := by
  refine ⟨?_, ?_, ?_, ?_, ?_, ?_⟩
  · cases save1 <;> cases hra : s.recorderActive <;> cases ok1 <;>
      simp [handleStopRecording, stopRecording, discardRecording, h, hra]
  · cases save1 <;> cases hra : s.recorderActive <;> cases ok1 <;>
      simp [handleStopRecording, stopRecording, discardRecording, h, hra]
  · cases save1 <;> cases hra : s.recorderActive <;> cases ok1 <;>
      simp [handleStopRecording, stopRecording, discardRecording, h, hra]
  · cases save1 <;> cases hra : s.recorderActive <;> cases ok1 <;>
      simp [handleStopRecording, stopRecording, discardRecording, h, hra, List.count_cons]
  · intro s2 h2
    simp [stopRecording, h2]
  · intro s2
    cases hra : s2.recorderActive <;> cases ok1 <;>
      simp [stopRecording, hra]

/-- Witness for C10 at the mid-recording state with successful stops on the
save path. -/
theorem c10_stop_idempotent_witness :
    recordingState0.recordingState = RecState.recording
    ∧ (handleStopRecording true true recordingState0).1.recordingState ≠ RecState.recording
    ∧ handleStopRecording true true (handleStopRecording true true recordingState0).1 =
        ((handleStopRecording true true recordingState0).1, []) :=
  ⟨rfl,
   (c10_stop_idempotent recordingState0 true true true true rfl).1,
   (c10_stop_idempotent recordingState0 true true true true rfl).2.1⟩
